import Mathlib

/-!
# Shallow embedding of the MPF ball-device coordination core

This file embeds the state and operations of `mpf/devices/ball_device.py`
and `mpf/devices/ball_save.py` in Lean and proves properties of them.

Modelling conventions:
* Python integers become `Int` (counters that the source lets go negative
  keep that behaviour; clamps appear exactly where the source clamps).
* Devices are identified by natural numbers; the surrounding machine
  (switch controller state, peer device capacities, name resolution,
  the known ball count) is an explicit `Env` record read by the
  operations exactly where the source reads the corresponding singleton.
* The event bus is external to the core (spec §1): posting an event is
  modelled as emitting an element of an event list; handler
  registration/removal on the bus and on the switch controller has no
  effect on the device's own state and is not tracked.  Queued-event
  callbacks (`_perform_eject`, `_mechanical_eject_attempt_callback`) are
  therefore separate operations, invoked by the bus.
* Named delays (`DelayManager`) are modelled as the set of pending delay
  names, which is what `stop()`/cancellation reasons about.
-/

namespace Mpf

/-- State of one switch as seen through the switch controller:
whether it is active and for how many ms it has been in its current
state.  `is_active(name, ms)` / `is_inactive(name, ms)` test the state
together with this duration. -/
structure SwState where
  active : Bool
  ms : Nat
deriving DecidableEq, Repr

/-- The machine singletons a ball device reads: switch controller state,
`get_additional_ball_capacity` of peer devices, device-name resolution,
`is_playfield()` of peers, and the ball controller's
`num_balls_known`. -/
structure Env where
  sw : Nat → SwState
  targetCap : Nat → Int
  deviceByName : String → Nat
  isPlayfield : Nat → Bool
  num_balls_known : Int

/-- `confirm_eject_type` configuration values (invalid strings make the
source call `sys.exit()`, so they are excluded from the type). -/
inductive ConfirmType
  | target
  | switch
  | event
  | count
  | fake
deriving DecidableEq, Repr

/-- Names of the delayed callbacks this device schedules through its
`DelayManager`. -/
inductive DelayName
  | targetEjectConfirmationTimeout
  | holdCoilRelease
deriving DecidableEq, Repr

/-- `DelayManager.add`: scheduling a name that is already pending
replaces it, so as a set of pending names this is insertion. -/
def addDelay (n : DelayName) (l : List DelayName) : List DelayName :=
  if n ∈ l then l else n :: l

/-- `DelayManager.remove`: idempotent removal by name. -/
def removeDelay (n : DelayName) (l : List DelayName) : List DelayName :=
  l.filter (fun m => m ≠ n)

/-- Per-device configuration (the keys of `config` that the modelled
operations read).  `ball_capacity` defaults to `len(ball_switches)`
when unset; `eject_timeouts` has been converted (in `_initialize`) to a
per-target map. -/
structure BDConfig where
  ball_capacity : Int
  ball_switches : List Nat
  jam_switch : Option Nat
  entrance_count_delay : Nat
  exit_count_delay : Nat
  eject_targets : List Nat
  eject_timeouts : Nat → Nat
  max_eject_attempts : Nat
  balls_per_eject : Nat
  mechanical_eject : Bool
  eject_coil : Bool
  hold_coil : Bool
  hold_coil_release_time : Nat
  confirm_eject_type : ConfirmType

/-- Mutable per-device state, one field per instance attribute set in
`BallDevice.__init__` (bus-handler bookkeeping excepted). -/
structure BDState where
  balls : Int
  valid : Bool
  need_first_time_count : Bool
  eject_queue : List (Nat × Nat)
  eject_in_progress_target : Option Nat
  num_balls_ejecting : Int
  num_eject_attempts : Nat
  num_jam_switch_count : Nat
  num_balls_requested : Int
  num_balls_in_transit : Int
  mechanical_eject_in_progress : Int
  manual_eject_target : Option Nat
  waiting_for_eject_trigger : Bool
  flag_confirm_eject_via_count : Bool
  ejected_ball_did_leave_device : Bool
  hold_release_in_progress : Bool
  delays : List DelayName
deriving DecidableEq, Repr

/-- The state set up by `BallDevice.__init__`. -/
def initState : BDState :=
  { balls := 0
    valid := false
    need_first_time_count := true
    eject_queue := []
    eject_in_progress_target := none
    num_balls_ejecting := 0
    num_eject_attempts := 0
    num_jam_switch_count := 0
    num_balls_requested := 0
    num_balls_in_transit := 0
    mechanical_eject_in_progress := 0
    manual_eject_target := none
    waiting_for_eject_trigger := false
    flag_confirm_eject_via_count := false
    ejected_ball_did_leave_device := false
    hold_release_in_progress := false
    delays := [] }

/-- Events posted by a ball device (the `balldevice_<name>_...` family,
with the payload keys the source supplies). -/
inductive Ev
  | ballEjectAttempt (balls : Int) (target : Nat) (timeout : Nat) (numAttempts : Nat)
  | ballEjectFailed (target : Nat) (balls : Int) (numAttempts : Nat)
  | ballEjectPermanentFailure
  | ballEjectSuccess (balls : Int) (target : Nat)
  | ballRequest (balls : Int)
  | okToReceive (balls : Int)
  | capturedFrom (balls : Int)
  | ballEnter (balls : Int)
  | mechanicalEjectAttempt (balls : Int)
  | mechanicalEjectFailed (target : Nat) (balls : Int) (numAttempts : Nat)
  | playerControlledEjectFailed
  | ballMissing (count : Int)
deriving DecidableEq, Repr

/-- `switch_controller.is_active(name, ms)`: the switch is active and has
been so at least `ms` milliseconds. -/
def is_active (env : Env) (i : Nat) (ms : Nat) : Bool :=
  (env.sw i).active && decide (ms ≤ (env.sw i).ms)

/-- `switch_controller.is_inactive(name, ms)`. -/
def is_inactive (env : Env) (i : Nat) (ms : Nat) : Bool :=
  !(env.sw i).active && decide (ms ≤ (env.sw i).ms)

/-- `get_additional_ball_capacity`: 0 while balls are ejecting, else
capacity minus contents (the source warns on, but still returns, a
negative value). -/
def get_additional_ball_capacity (cfg : BDConfig) (s : BDState) : Int :=
  if s.num_balls_ejecting ≠ 0 then 0
  else cfg.ball_capacity - s.balls

/-- Result of `request_ball`: the Python method returns `False`, `0`, or
the number of balls requested. -/
inductive RBRes
  | rFalse
  | rNum (n : Int)
deriving DecidableEq, Repr

/-- `request_ball(balls)`. -/
def request_ball (cfg : BDConfig) (balls : Int) (s : BDState) :
    BDState × List Ev × RBRes :=
  if s.eject_in_progress_target.isSome then (s, [], .rFalse)
  else if get_additional_ball_capacity cfg s = 0 then (s, [], .rFalse)
  else
    let rem0 := cfg.ball_capacity - s.balls - s.num_balls_requested
    let rem := if rem0 < 0 then 0 else rem0
    let b := if balls = -1 ∨ balls > rem then rem else balls
    if b = 0 then (s, [], .rNum 0)
    else ({ s with num_balls_requested := s.num_balls_requested + b },
          [Ev.ballRequest b], .rNum b)

/-- `_do_eject`.  The `ball_eject_attempt` event is queued with
`_perform_eject` as its completion callback; the callback runs when the
bus drains, so it is a separate operation here. -/
def do_eject (env : Env) (cfg : BDConfig) (s : BDState) : BDState × List Ev :=
  if s.eject_queue = [] then (s, [])
  else if s.eject_in_progress_target.isSome then (s, [])
  else if s.balls = 0 ∧ s.num_balls_requested = 0 then
    let p := request_ball cfg 1 s
    (p.1, p.2.1)
  else if s.balls ≠ 0 then
    match s.eject_queue with
    | [] => (s, [])
    | (target, timeout) :: rest =>
      if env.targetCap target = 0 then (s, [])
      else
        let s1 := { s with eject_queue := rest
                           eject_in_progress_target := some target
                           num_eject_attempts := s.num_eject_attempts + 1 }
        let s2 :=
          match cfg.jam_switch with
          | none => s1
          | some j =>
            { s1 with num_jam_switch_count :=
                if (env.sw j).active then 1 else 0 }
        let s3 := { s2 with num_balls_ejecting :=
            if cfg.balls_per_eject = 1 then 1
            else s2.balls + s2.mechanical_eject_in_progress }
        (s3, [Ev.ballEjectAttempt s3.num_balls_ejecting target timeout
                s3.num_eject_attempts])
  else (s, [])

/-- `_setup_eject_confirmation(target, timeout)`.  Handler registration
is bus-side; the device-visible effects are the count-confirmation flag
and the failure-timeout delay.  With confirm type `target` and no
target the source raises an exception (modelled as no state change). -/
def setup_eject_confirmation (env : Env) (cfg : BDConfig)
    (target : Option Nat) (timeout : Nat) (s : BDState) : BDState :=
  let s0 := { s with flag_confirm_eject_via_count := false }
  match cfg.confirm_eject_type with
  | .target =>
    match target with
    | none => s0
    | some t =>
      let s1 :=
        if env.isPlayfield t then
          { s0 with flag_confirm_eject_via_count := true }
        else s0
      if timeout ≠ 0 then
        { s1 with delays := addDelay .targetEjectConfirmationTimeout s1.delays }
      else s1
  | .switch => s0
  | .event => s0
  | .count => { s0 with flag_confirm_eject_via_count := true }
  | .fake =>
    { s0 with delays := addDelay .targetEjectConfirmationTimeout s0.delays }

/-- `_cancel_eject_confirmation`.  Note that it resets
`num_eject_attempts` to 0 (and does not touch `num_balls_ejecting`). -/
def cancel_eject_confirmation (s : BDState) : BDState :=
  { s with eject_in_progress_target := none
           num_eject_attempts := 0
           manual_eject_target := none
           waiting_for_eject_trigger := false
           mechanical_eject_in_progress := 0
           delays := removeDelay .targetEjectConfirmationTimeout s.delays }

/-- `_eject_success`. -/
def eject_success (env : Env) (cfg : BDConfig) (s : BDState) :
    BDState × List Ev :=
  let s0 := { s with flag_confirm_eject_via_count := false }
  let p1 : BDState × List Ev :=
    match s0.eject_in_progress_target with
    | some t =>
      ({ s0 with num_jam_switch_count := 0
                 num_eject_attempts := 0
                 eject_in_progress_target := none
                 num_balls_ejecting := 0 },
       [Ev.ballEjectSuccess s0.num_balls_ejecting t])
    | none => (s0, [])
  let s2 := cancel_eject_confirmation p1.1
  if s2.eject_queue ≠ [] then
    let p2 := do_eject env cfg s2
    (p2.1, p1.2 ++ p2.2)
  else if get_additional_ball_capacity cfg s2 ≠ 0 then
    (s2, p1.2 ++ [Ev.okToReceive (get_additional_ball_capacity cfg s2)])
  else (s2, p1.2)

/-- `_eject_permanently_failed` (posts
`balldevice_<name>ball_eject_permanent_failure`). -/
def eject_permanently_failed : List Ev :=
  [Ev.ballEjectPermanentFailure]

/-- `eject_failed(retry, force_retry)`.  With no eject in progress the
source raises a `KeyError` on the timeout lookup; that case is modelled
as a no-op and excluded by hypothesis in the theorems.  The retry-budget
check reads `num_eject_attempts` AFTER `_cancel_eject_confirmation` has
reset it to 0, exactly as the source does. -/
def eject_failed (env : Env) (cfg : BDConfig) (retry force_retry : Bool)
    (s : BDState) : BDState × List Ev :=
  match s.eject_in_progress_target with
  | none => (s, [])
  | some t =>
    let s1 := { s with eject_queue := (t, cfg.eject_timeouts t) :: s.eject_queue }
    let ballsEj := s1.num_balls_ejecting
    let s2 := { s1 with eject_in_progress_target := none
                        num_balls_ejecting := 0
                        num_eject_attempts := s1.num_eject_attempts + 1 }
    let ev := Ev.ballEjectFailed t ballsEj s2.num_eject_attempts
    let s3 := cancel_eject_confirmation s2
    if retry ∧ (cfg.max_eject_attempts = 0 ∨
        s3.num_eject_attempts < cfg.max_eject_attempts) then
      let p := do_eject env cfg s3
      (p.1, ev :: p.2)
    else if force_retry then
      let p := do_eject env cfg s3
      (p.1, ev :: p.2)
    else
      (s3, ev :: eject_permanently_failed)

/-- `_mechanical_eject_failed`.  Like `eject_failed`, requires an eject
in progress for the timeout lookup. -/
def mechanical_eject_failed (cfg : BDConfig) (s : BDState) :
    BDState × List Ev :=
  match s.eject_in_progress_target with
  | none => (s, [])
  | some t =>
    let s1 := { s with eject_queue := (t, cfg.eject_timeouts t) :: s.eject_queue }
    let ev := Ev.mechanicalEjectFailed t s1.num_balls_ejecting s1.num_eject_attempts
    let s2 := { s1 with eject_in_progress_target := none
                        num_balls_ejecting := 0
                        num_eject_attempts := s1.num_eject_attempts + 1
                        mechanical_eject_in_progress := 0
                        delays := removeDelay .targetEjectConfirmationTimeout s1.delays }
    (s2, [ev])

/-- `_balls_missing`. -/
def balls_missing (s : BDState) (balls : Int) : BDState × List Ev :=
  if s.manual_eject_target.isSome then (s, [])
  else (s, [Ev.ballMissing |balls|])

/-- `_balls_added`.  The `ball_enter` relay's completion callback
(`_balls_added_callback`) is bus-side and runs after the relay
delivers, so it is not folded into this operation. -/
def balls_added (env : Env) (cfg : BDConfig) (s : BDState) (balls : Int) :
    BDState × List Ev :=
  if s.eject_in_progress_target.isSome ∧ cfg.jam_switch.isSome ∧
      s.num_jam_switch_count > 1 then
    eject_failed env cfg true false s
  else
    let evs1 :=
      if (s.eject_in_progress_target.isSome ∧ cfg.jam_switch.isSome ∧
            s.num_jam_switch_count = 1) ∨
          s.eject_in_progress_target = none then
        (if s.num_balls_in_transit = 0 then [Ev.capturedFrom balls] else []) ++
          [Ev.ballEnter balls]
      else []
    if s.mechanical_eject_in_progress ≠ 0 ∧
        s.eject_in_progress_target.isSome then
      let p := mechanical_eject_failed cfg s
      (p.1, evs1 ++ p.2 ++ [Ev.playerControlledEjectFailed])
    else (s, evs1)

/-- The `_mechanical_eject_in_progress` switch handler (fires when a
ball switch has been open `mechanical_eject_trigger_time` ms while a
player-controlled eject is armed). -/
def mechanical_eject_in_progress_handler (env : Env) (cfg : BDConfig)
    (s : BDState) : BDState × List Ev :=
  match s.manual_eject_target with
  | none => (s, [])
  | some t =>
    let s1 := { s with eject_in_progress_target := some t
                       eject_queue := []
                       balls := 0
                       num_balls_ejecting := 1
                       mechanical_eject_in_progress := 1 }
    (setup_eject_confirmation env cfg (some t) 0 s1,
     [Ev.mechanicalEjectAttempt 1, Ev.ballEjectAttempt 1 t 0 0])

/-- Is a ball switch settled long enough for `count_balls` to trust it:
`is_active(entrance_count_delay)` or `is_inactive(exit_count_delay)`. -/
def switchValid (env : Env) (cfg : BDConfig) (i : Nat) : Bool :=
  is_active env i cfg.entrance_count_delay ||
    is_inactive env i cfg.exit_count_delay

/-- `count_balls()`.  Returns the new state, the posted events, and the
method's return value. -/
def count_balls (env : Env) (cfg : BDConfig) (s : BDState) :
    BDState × List Ev × Int :=
  let sv := { s with valid := true }
  if cfg.ball_switches ≠ [] then
    let previous := sv.balls
    if ¬ (cfg.ball_switches.all (switchValid env cfg)) then
      ({ sv with valid := false }, [], previous)
    else
      let ballCount : Int :=
        ((cfg.ball_switches.filter
            (fun i => is_active env i cfg.entrance_count_delay)).length : Int)
      let s1 := { sv with balls := ballCount }
      let change : Int := if s1.need_first_time_count then 0 else ballCount - previous
      let p2 : BDState × List Ev :=
        if change = 0 ∧ s1.flag_confirm_eject_via_count ∧
            s1.eject_in_progress_target.isSome ∧
            s1.ejected_ball_did_leave_device then
          eject_success env cfg s1
        else (s1, [])
      let p3 : BDState × List Ev :=
        if change > 0 then
          if p2.1.mechanical_eject_in_progress ≠ 0 ∧
              p2.1.eject_in_progress_target.isSome then
            mechanical_eject_failed cfg p2.1
          else balls_added env cfg p2.1 change
        else if change < 0 then balls_missing p2.1 change
        else (p2.1, [])
      let s4 := { p3.1 with need_first_time_count := false }
      let s5 := if s4.balls < 0 then { s4 with balls := 0 } else s4
      (s5, p2.2 ++ p3.2, s5.balls)
  else
    let s1 := if sv.need_first_time_count then { sv with balls := 0 } else sv
    let s2 := { s1 with need_first_time_count := false }
    let s3 := if s2.balls < 0 then { s2 with balls := 0 } else s2
    (s3, [], s3.balls)

/-- `_ball_left_device(balls)`: decrement the count (clamped at 0) and
latch that the ejected ball physically left. -/
def ball_left_device (balls : Int) (s : BDState) : BDState :=
  let b := s.balls - balls
  { s with balls := if b < 0 then 0 else b
           ejected_ball_did_leave_device := true }

/-- `_perform_eject(target, timeout)` (the queued-event callback of the
eject attempt).  Coil pulses are hardware-side; the device state
effects are the confirmation setup, the left-device latch, the
immediate decrement for switchless devices and the hold-coil release
delay. -/
def perform_eject (env : Env) (cfg : BDConfig) (target : Option Nat)
    (timeout : Nat) (s : BDState) : BDState :=
  let s1 := setup_eject_confirmation env cfg target timeout s
  let s2 := { s1 with ejected_ball_did_leave_device := false }
  let s3 :=
    if cfg.ball_switches = [] then
      { s2 with balls := s2.balls - s2.num_balls_ejecting
                ejected_ball_did_leave_device := true }
    else s2
  if cfg.eject_coil then s3
  else if cfg.hold_coil then
    { s3 with hold_release_in_progress := true
              delays := addDelay .holdCoilRelease s3.delays }
  else s3

/-- `stop()`. -/
def stop (env : Env) (cfg : BDConfig) (s : BDState) : BDState × List Ev :=
  let s1 := { s with eject_in_progress_target := none
                     eject_queue := []
                     num_jam_switch_count := 0 }
  let s2 := cancel_eject_confirmation s1
  let p := count_balls env cfg s2
  (p.1, p.2.1)

/-- A target argument to `eject`: a device name or a device object
(`None` is represented by `Option.none` at the call site). -/
inductive TRef
  | byName (n : String)
  | byRef (d : Nat)
deriving DecidableEq, Repr

/-- Target resolution in `eject`: `None` becomes the first configured
eject target (the source indexes `eject_targets[0]` and would raise on
an empty list; `headD 0` stands in for that), a string is looked up in
`machine.ball_devices`. -/
def resolveTarget (env : Env) (cfg : BDConfig) : Option TRef → Nat
  | none => cfg.eject_targets.headD 0
  | some (.byName n) => env.deviceByName n
  | some (.byRef d) => d

/-- Result of `eject`: `False` for a rejected request, otherwise the
method falls through (returns `None`). -/
inductive EjectRes
  | retFalse
  | retNone
deriving DecidableEq, Repr

/-- The enqueue phase of `eject` (everything before the final
`self._do_eject()` call): resolve target and timeout, clamp the count
to the balls held unless `get_ball`, and append to the queue. -/
def ejectEnqueue (env : Env) (cfg : BDConfig) (balls : Int)
    (target : Option TRef) (timeout : Option Nat) (get_ball : Bool)
    (s : BDState) : BDState :=
  let t := resolveTarget env cfg target
  let tmo := timeout.getD (cfg.eject_timeouts t)
  let balls_to_eject := if balls > s.balls ∧ get_ball = false then s.balls else balls
  { s with eject_queue :=
      s.eject_queue ++ List.replicate balls_to_eject.toNat (t, tmo) }

/-- `eject(balls, target, timeout, get_ball)`. -/
def eject (env : Env) (cfg : BDConfig) (balls : Int) (target : Option TRef)
    (timeout : Option Nat) (get_ball : Bool) (s : BDState) :
    BDState × List Ev × EjectRes :=
  if balls < 1 then (s, [], .retFalse)
  else
    let s1 := ejectEnqueue env cfg balls target timeout get_ball s
    let p := do_eject env cfg s1
    (p.1, p.2, .retNone)

/-- `is_full()`. -/
def is_full (env : Env) (cfg : BDConfig) (s : BDState) : Bool :=
  if cfg.ball_capacity ≠ 0 ∧ s.balls ≥ cfg.ball_capacity then true
  else if s.balls ≥ env.num_balls_known then true
  else false

/-- `_entrance_switch_handler`. -/
def entrance_switch_handler (env : Env) (cfg : BDConfig) (s : BDState) :
    BDState × List Ev :=
  if cfg.ball_switches = [] then
    if is_full env cfg s then (s, [])
    else
      balls_added env cfg { s with balls := s.balls + 1 } 1
  else (s, [])

/-! ## Ball-save adjunct (`mpf/devices/ball_save.py`) -/

/-- Configuration of a `BallSave` (the keys the modelled methods read).
`has_timer_start_events` is whether `timer_start_events` is non-empty. -/
structure BSConfig where
  balls_to_save : Int
  auto_launch : Bool
  active_time : Nat
  grace_period : Nat
  hurry_up_time : Nat
  has_timer_start_events : Bool
deriving DecidableEq, Repr

/-- `unlimited_saves`, derived in `BallSave.__init__` from the config. -/
def unlimited_saves (cfg : BSConfig) : Bool :=
  cfg.balls_to_save = -1

/-- Names of the ball-save's delayed callbacks. -/
inductive BSDelay
  | dDisable
  | dHurryUp
  | dGracePeriod
deriving DecidableEq, Repr

def bsAdd (n : BSDelay) (l : List BSDelay) : List BSDelay :=
  if n ∈ l then l else n :: l

def bsRemove (n : BSDelay) (l : List BSDelay) : List BSDelay :=
  l.filter (fun m => m ≠ n)

/-- Mutable `BallSave` state.  `handler_active` tracks whether the
`ball_drain` handler is registered on the bus. -/
structure BSState where
  enabled : Bool
  saves_remaining : Int
  handler_active : Bool
  delays : List BSDelay
deriving DecidableEq, Repr

/-- The state set up by `BallSave.__init__`. -/
def bsInit : BSState :=
  { enabled := false, saves_remaining := 0, handler_active := false, delays := [] }

/-- Events and external effects of a ball save (the
`ball_save_<name>_...` family plus the `source_playfield.add_ball`
request). -/
inductive BSEv
  | enabledEv
  | disabledEv
  | savingBall (balls : Int)
  | addBall (balls : Int) (player_controlled : Bool)
  | hurryUpEv
  | gracePeriodEv
deriving DecidableEq, Repr

/-- `timer_start()`. -/
def timer_start (cfg : BSConfig) (s : BSState) : BSState :=
  if cfg.active_time > 0 then
    { s with delays := bsAdd .dHurryUp (bsAdd .dGracePeriod (bsAdd .dDisable s.delays)) }
  else s

/-- `BallSave.enable()`. -/
def enable (cfg : BSConfig) (s : BSState) : BSState × List BSEv :=
  if s.enabled then (s, [])
  else
    let s1 := { s with saves_remaining := cfg.balls_to_save
                       enabled := true
                       handler_active := true }
    let s2 :=
      if cfg.active_time > 0 ∧ ¬ cfg.has_timer_start_events then
        timer_start cfg s1
      else s1
    (s2, [BSEv.enabledEv])

/-- `BallSave.disable()`. -/
def disable (cfg : BSConfig) (s : BSState) : BSState × List BSEv :=
  if ¬ s.enabled then (s, [])
  else
    ({ s with enabled := false
              handler_active := false
              delays := bsRemove .dGracePeriod (bsRemove .dHurryUp
                  (bsRemove .dDisable s.delays)) },
     [BSEv.disabledEv])

/-- `_ball_drain_while_active(balls)`, the high-priority `ball_drain`
relay handler.  `balls_in_play` is `machine.game.balls_in_play`
(`none` when there is no game, which the source catches as an
`AttributeError`).  Returns the relayed `balls` value.  Note
`player_controlled = auto_launch ^ 1`, i.e. the negation of
`auto_launch`. -/
def ball_drain_while_active (cfg : BSConfig) (balls : Int)
    (balls_in_play : Option Int) (s : BSState) :
    BSState × List BSEv × Int :=
  if balls ≤ 0 then (s, [], balls)
  else
    let no_balls_in_play : Bool :=
      match balls_in_play with
      | none => true
      | some b => b = 0
    if no_balls_in_play then (s, [], balls)
    else
      let evs := [BSEv.savingBall balls, BSEv.addBall balls (!cfg.auto_launch)]
      let s1 :=
        if ¬ unlimited_saves cfg then
          { s with saves_remaining := s.saves_remaining - balls }
        else s
      if s1.saves_remaining ≤ 0 then
        let p := disable cfg s1
        (p.1, evs ++ p.2, 0)
      else (s1, evs, 0)

/-! ## Concrete fixtures used by counterexamples and witnesses -/

/-- A machine environment: every switch inactive and settled, every
peer device able to receive one ball, three known balls. -/
def env0 : Env :=
  { sw := fun _ => ⟨false, 1000⟩
    targetCap := fun _ => 1
    deviceByName := fun _ => 1
    isPlayfield := fun _ => false
    num_balls_known := 3 }

/-- A switchless coil device ejecting to device 1 with a 1000 ms
timeout and a retry budget of 2. -/
def cfg1 : BDConfig :=
  { ball_capacity := 3
    ball_switches := []
    jam_switch := none
    entrance_count_delay := 300
    exit_count_delay := 500
    eject_targets := [1]
    eject_timeouts := fun _ => 1000
    max_eject_attempts := 2
    balls_per_eject := 1
    mechanical_eject := false
    eject_coil := true
    hold_coil := false
    hold_coil_release_time := 1000
    confirm_eject_type := .target }

/-- A ball save with one save and a 10 s timer. -/
def bsCfg1 : BSConfig :=
  { balls_to_save := 1
    auto_launch := true
    active_time := 10000
    grace_period := 2000
    hurry_up_time := 2000
    has_timer_start_events := false }

/-- An unlimited ball save. -/
def bsCfgU : BSConfig :=
  { bsCfg1 with balls_to_save := -1 }

/-! ## Claims about the ball save -/

/-- C8: for an enabled ball save, a `ball_drain` with `balls > 0` while
`balls_in_play > 0` is swallowed (the relay returns `balls: 0`), the
`saving_ball` event is posted, the source playfield is asked to add the
drained number of balls, and — unless `balls_to_save = -1` —
`saves_remaining` drops by that number and the save disables itself
once `saves_remaining` reaches 0 (or below). -/
theorem C8_drain_saves (cfg : BSConfig) (s : BSState) (balls bip : Int)
    (hen : s.enabled = true) (hb : 0 < balls) (hbip : 0 < bip) :
    (ball_drain_while_active cfg balls (some bip) s).2.2 = 0 ∧
    BSEv.savingBall balls ∈ (ball_drain_while_active cfg balls (some bip) s).2.1 ∧
    BSEv.addBall balls (!cfg.auto_launch) ∈
      (ball_drain_while_active cfg balls (some bip) s).2.1 ∧
    (cfg.balls_to_save ≠ -1 →
      (ball_drain_while_active cfg balls (some bip) s).1.saves_remaining
        = s.saves_remaining - balls ∧
      (s.saves_remaining - balls ≤ 0 →
        (ball_drain_while_active cfg balls (some bip) s).1.enabled = false)) := by
  have hble : ¬ balls ≤ 0 := by omega
  have hbip0 : ¬ bip = 0 := by omega
  simp only [ball_drain_while_active, hble, if_false, hbip0, decide_eq_true_eq]
  refine ⟨?_, ?_, ?_, ?_⟩
  · split <;> split <;> rfl
  · split <;> split <;> simp
  · split <;> split <;> simp
  · intro hlim
    have hunl : ¬ unlimited_saves cfg = true := by
      simp [unlimited_saves, hlim]
    rw [if_pos hunl]
    constructor
    · split <;> simp [disable, hen]
    · intro hle
      rw [if_pos (by simpa using hle)]
      simp [disable, hen]

/-- Witness for C8 at a concrete input. -/
theorem C8_drain_saves_witness :
    (ball_drain_while_active bsCfg1 1 (some 1)
        { bsInit with enabled := true, saves_remaining := 1 }).2.2 = 0 ∧
    BSEv.savingBall 1 ∈ (ball_drain_while_active bsCfg1 1 (some 1)
        { bsInit with enabled := true, saves_remaining := 1 }).2.1 ∧
    BSEv.addBall 1 (!bsCfg1.auto_launch) ∈
      (ball_drain_while_active bsCfg1 1 (some 1)
        { bsInit with enabled := true, saves_remaining := 1 }).2.1 ∧
    (bsCfg1.balls_to_save ≠ -1 →
      (ball_drain_while_active bsCfg1 1 (some 1)
          { bsInit with enabled := true, saves_remaining := 1 }).1.saves_remaining
        = ({ bsInit with enabled := true, saves_remaining := 1 } : BSState).saves_remaining - 1 ∧
      (({ bsInit with enabled := true, saves_remaining := 1 } : BSState).saves_remaining - 1 ≤ 0 →
        (ball_drain_while_active bsCfg1 1 (some 1)
          { bsInit with enabled := true, saves_remaining := 1 }).1.enabled = false)) :=
  C8_drain_saves bsCfg1 { bsInit with enabled := true, saves_remaining := 1 } 1 1
    rfl (by decide) (by decide)

/-- C9: with `balls_to_save = -1`, `enable()` sets `saves_remaining`
to −1; the first saved drain skips the decrement but the handler's
unconditional `saves_remaining <= 0` check then calls `disable()`, so
the "unlimited" save is disabled after its first saved ball. -/
theorem C9_unlimited_disables_after_first_save (cfg : BSConfig) (s : BSState)
    (balls bip : Int) (hunl : cfg.balls_to_save = -1) (hdis : s.enabled = false)
    (hb : 0 < balls) (hbip : 0 < bip) :
    (enable cfg s).1.saves_remaining = -1 ∧
    (ball_drain_while_active cfg balls (some bip) (enable cfg s).1).1.saves_remaining = -1 ∧
    (ball_drain_while_active cfg balls (some bip) (enable cfg s).1).1.enabled = false := by
  have hs1 : (enable cfg s).1.saves_remaining = -1 := by
    simp only [enable, hdis, Bool.false_eq_true, if_false]
    split
    · simp [timer_start]
      split <;> simp [hunl]
    · simp [hunl]
  have hen1 : (enable cfg s).1.enabled = true := by
    simp only [enable, hdis, Bool.false_eq_true, if_false]
    split
    · simp [timer_start]
      split <;> simp
    · simp
  have hble : ¬ balls ≤ 0 := by omega
  have hbip0 : ¬ bip = 0 := by omega
  refine ⟨hs1, ?_, ?_⟩ <;>
  · simp only [ball_drain_while_active, hble, if_false, hbip0, decide_eq_true_eq]
    rw [if_neg (show ¬¬unlimited_saves cfg = true by
          simp [unlimited_saves, hunl])]
    rw [if_pos (show (enable cfg s).1.saves_remaining ≤ 0 by rw [hs1]; norm_num)]
    simp [disable, hen1, hs1]

/-- Witness for C9 at a concrete input. -/
theorem C9_unlimited_disables_after_first_save_witness :
    (enable bsCfgU bsInit).1.saves_remaining = -1 ∧
    (ball_drain_while_active bsCfgU 1 (some 1) (enable bsCfgU bsInit).1).1.saves_remaining = -1 ∧
    (ball_drain_while_active bsCfgU 1 (some 1) (enable bsCfgU bsInit).1).1.enabled = false :=
  C9_unlimited_disables_after_first_save bsCfgU bsInit 1 1 rfl rfl
    (by decide) (by decide)

/-- C10: `enable()` on an already-enabled save and `disable()` on an
already-disabled save return immediately: the state (counters, timers,
handler registration) is unchanged and no event is posted. -/
theorem C10_enable_disable_idempotent (cfg : BSConfig) (s : BSState) :
    (s.enabled = true → enable cfg s = (s, [])) ∧
    (s.enabled = false → disable cfg s = (s, [])) := by
  constructor
  · intro h
    unfold enable
    simp [h]
  · intro h
    unfold disable
    simp [h]

/-- Witness for C10 at concrete inputs. -/
theorem C10_enable_disable_idempotent_witness :
    enable bsCfg1 { bsInit with enabled := true } = ({ bsInit with enabled := true }, []) ∧
    disable bsCfg1 bsInit = (bsInit, []) :=
  ⟨(C10_enable_disable_idempotent bsCfg1 { bsInit with enabled := true }).1 rfl,
   (C10_enable_disable_idempotent bsCfg1 bsInit).2 rfl⟩

/-! ## Claims about the ball device -/

/-- Recognizer for `ball_eject_attempt` events. -/
def isAttemptEv : Ev → Bool
  | .ballEjectAttempt _ _ _ _ => true
  | _ => false

/-- A device holding one ball with one queued eject to device 1. -/
def c1Start : BDState :=
  { initState with balls := 1, eject_queue := [(1, 1000)] }

/-- An execution in which the queued eject is attempted and then fails
twice in a row with `retry=True, force_retry=False`
(`max_eject_attempts = 2`): `_do_eject`, then `eject_failed` twice. -/
def c1Run : BDState × List Ev :=
  let p1 := do_eject env0 cfg1 c1Start
  let p2 := eject_failed env0 cfg1 true false p1.1
  let p3 := eject_failed env0 cfg1 true false p2.1
  (p3.1, p1.2 ++ p2.2 ++ p3.2)

/-- C1 (code bug): with `max_eject_attempts = 2`, after two failed
attempts with `retry=True` the code posts a THIRD `ball_eject_attempt`
and never posts `ball_eject_permanent_failure` —
`_cancel_eject_confirmation` resets `num_eject_attempts` to 0 before
`eject_failed` checks the retry budget, so the budget check always
passes and `_eject_permanently_failed` is unreachable with
`retry=True`.  The claim (and `eject_failed`'s own docstring) says the
retries stop after `max_eject_attempts`. -/
theorem C1_retry_budget_never_enforced :
    cfg1.max_eject_attempts = 2 ∧
    (c1Run.2.filter isAttemptEv).length = 3 ∧
    Ev.ballEjectPermanentFailure ∉ c1Run.2 ∧
    c1Run.1.eject_in_progress_target = some 1 := by decide

/-- Invariant 2 of the spec: an eject target is set iff balls are
ejecting. -/
def inv2 (s : BDState) : Prop :=
  s.eject_in_progress_target.isSome ↔ 0 < s.num_balls_ejecting

instance inv2Decidable (s : BDState) : Decidable (inv2 s) := by
  unfold inv2
  infer_instance

/-- `request_ball` only ever touches `num_balls_requested`. -/
lemma request_ball_shape (cfg : BDConfig) (b : Int) (s : BDState) :
    ∃ r, (request_ball cfg b s).1 = { s with num_balls_requested := r } := by
  simp only [request_ball]
  split_ifs <;> exact ⟨_, rfl⟩

/-- `_do_eject` keeps invariant 2 (for a device with a non-negative
count and non-negative mechanical-eject counter). -/
lemma inv2_do_eject (env : Env) (cfg : BDConfig) (s : BDState)
    (hb : 0 ≤ s.balls) (hm : 0 ≤ s.mechanical_eject_in_progress)
    (h : inv2 s) : inv2 (do_eject env cfg s).1 := by
  unfold do_eject
  split
  · exact h
  · split
    · exact h
    · split
      · obtain ⟨r, hr⟩ := request_ball_shape cfg 1 s
        simp only [hr]
        simpa [inv2] using h
      · split
        · rename_i hnz
          split
          · exact h
          · split
            · exact h
            · cases hj : cfg.jam_switch <;>
              · simp only [inv2, hj]
                split <;> simp <;> omega
        · exact h

lemma setup_target (env : Env) (cfg : BDConfig) (t : Option Nat) (tmo : Nat) (s : BDState) :
    (setup_eject_confirmation env cfg t tmo s).eject_in_progress_target
      = s.eject_in_progress_target := by
  unfold setup_eject_confirmation
  (repeat' split) <;> simp

lemma setup_ejecting (env : Env) (cfg : BDConfig) (t : Option Nat) (tmo : Nat) (s : BDState) :
    (setup_eject_confirmation env cfg t tmo s).num_balls_ejecting = s.num_balls_ejecting := by
  unfold setup_eject_confirmation
  (repeat' split) <;> simp

lemma setup_balls (env : Env) (cfg : BDConfig) (t : Option Nat) (tmo : Nat) (s : BDState) :
    (setup_eject_confirmation env cfg t tmo s).balls = s.balls := by
  unfold setup_eject_confirmation
  (repeat' split) <;> simp

lemma setup_queue (env : Env) (cfg : BDConfig) (t : Option Nat) (tmo : Nat) (s : BDState) :
    (setup_eject_confirmation env cfg t tmo s).eject_queue = s.eject_queue := by
  unfold setup_eject_confirmation
  (repeat' split) <;> simp

/-- `_do_eject` never changes the ball count or the mechanical-eject
counter. -/
lemma do_eject_balls (env : Env) (cfg : BDConfig) (s : BDState) :
    (do_eject env cfg s).1.balls = s.balls ∧
    (do_eject env cfg s).1.mechanical_eject_in_progress = s.mechanical_eject_in_progress := by
  unfold do_eject
  split
  · exact ⟨rfl, rfl⟩
  · split
    · exact ⟨rfl, rfl⟩
    · split
      · obtain ⟨r, hr⟩ := request_ball_shape cfg 1 s
        simp [hr]
      · split
        · split
          · exact ⟨rfl, rfl⟩
          · split
            · exact ⟨rfl, rfl⟩
            · cases cfg.jam_switch <;> simp
        · exact ⟨rfl, rfl⟩

lemma inv2_eject_success (env : Env) (cfg : BDConfig) (s : BDState)
    (hb : 0 ≤ s.balls) (h : inv2 s) : inv2 (eject_success env cfg s).1 := by
  unfold eject_success
  cases ht : s.eject_in_progress_target with
  | some t =>
    simp only [ht]
    split
    · exact inv2_do_eject env cfg _ hb (by simp [cancel_eject_confirmation])
        (by simp [inv2, cancel_eject_confirmation])
    · split
      · simp [inv2, cancel_eject_confirmation]
      · simp [inv2, cancel_eject_confirmation]
  | none =>
    simp only [ht]
    have h2 : ¬ 0 < s.num_balls_ejecting := by
      intro hlt
      exact absurd (h.mpr hlt) (by simp [ht])
    split
    · exact inv2_do_eject env cfg _ hb (by simp [cancel_eject_confirmation])
        (by simp [inv2, cancel_eject_confirmation, h2])
    · split
      · simp [inv2, cancel_eject_confirmation, h2]
      · simp [inv2, cancel_eject_confirmation, h2]

lemma inv2_eject_failed (env : Env) (cfg : BDConfig) (r f : Bool) (s : BDState)
    (hb : 0 ≤ s.balls) (ht : s.eject_in_progress_target.isSome) :
    inv2 (eject_failed env cfg r f s).1 := by
  unfold eject_failed
  cases hte : s.eject_in_progress_target with
  | none => simp [hte] at ht
  | some t =>
    simp only [hte]
    split
    · exact inv2_do_eject env cfg _ hb (by simp [cancel_eject_confirmation])
        (by simp [inv2, cancel_eject_confirmation])
    · split
      · exact inv2_do_eject env cfg _ hb (by simp [cancel_eject_confirmation])
          (by simp [inv2, cancel_eject_confirmation])
      · simp [inv2, cancel_eject_confirmation]

lemma inv2_mech_handler (env : Env) (cfg : BDConfig) (s : BDState)
    (h : inv2 s) : inv2 (mechanical_eject_in_progress_handler env cfg s).1 := by
  unfold mechanical_eject_in_progress_handler
  cases hm : s.manual_eject_target with
  | none => simpa [hm] using h
  | some t =>
    simp only [hm]
    simp [inv2, setup_target, setup_ejecting]

lemma inv2_mech_failed (cfg : BDConfig) (s : BDState)
    (ht : s.eject_in_progress_target.isSome) :
    inv2 (mechanical_eject_failed cfg s).1 := by
  unfold mechanical_eject_failed
  cases hte : s.eject_in_progress_target with
  | none => simp [hte] at ht
  | some t =>
    simp only [hte]
    simp [inv2]

lemma inv2_eject (env : Env) (cfg : BDConfig) (balls : Int) (tr : Option TRef)
    (tmo : Option Nat) (gb : Bool) (s : BDState)
    (hb : 0 ≤ s.balls) (hm : 0 ≤ s.mechanical_eject_in_progress) (h : inv2 s) :
    inv2 (eject env cfg balls tr tmo gb s).1 := by
  unfold eject
  split
  · exact h
  · exact inv2_do_eject env cfg _ (by simpa [ejectEnqueue] using hb)
      (by simpa [ejectEnqueue] using hm) (by simpa [inv2, ejectEnqueue] using h)

/-- `count_balls` with no eject in progress changes neither the eject
queue, the target, the pending delays, nor `num_balls_ejecting`. -/
lemma count_balls_none_target (env : Env) (cfg : BDConfig) (s : BDState)
    (ht : s.eject_in_progress_target = none) :
    (count_balls env cfg s).1.eject_queue = s.eject_queue ∧
    (count_balls env cfg s).1.eject_in_progress_target = none ∧
    (count_balls env cfg s).1.delays = s.delays ∧
    (count_balls env cfg s).1.num_balls_ejecting = s.num_balls_ejecting := by
  simp only [count_balls, balls_added, balls_missing, ht, Option.isSome_none,
    Bool.false_eq_true, false_and, and_false, if_false]
  split_ifs <;> simp [ht]

/-- `stop()` always leaves `eject_in_progress_target` unset. -/
lemma stop_target_none (env : Env) (cfg : BDConfig) (s : BDState) :
    (stop env cfg s).1.eject_in_progress_target = none :=
  (count_balls_none_target env cfg _ rfl).2.1

/-- A device one attempt into an eject. -/
def c2Stop : BDState :=
  { initState with balls := 1, eject_in_progress_target := some 1, num_balls_ejecting := 1 }

/-- C2 counterexample: `stop()` resets `eject_in_progress_target` but
not `num_balls_ejecting`, so the claimed equivalence fails right after
`stop()` on a device that was mid-eject. -/
theorem C2_counterexample :
    inv2 c2Stop ∧ ¬ inv2 (stop env0 cfg1 c2Stop).1 := by decide

/-- C2 (amended): `eject_in_progress_target` is set iff
`num_balls_ejecting > 0` is preserved by `eject`, `_do_eject`,
`_eject_success`, `eject_failed`, `_mechanical_eject_in_progress` and
`_mechanical_eject_failed` (under non-negative ball counters, and an
eject in progress where the source would otherwise raise); `stop()`
clears the target but leaves `num_balls_ejecting` untouched, so after
`stop()` only `eject_in_progress_target = none` is guaranteed. -/
theorem C2_amended (env : Env) (cfg : BDConfig) (s : BDState)
    (h : inv2 s) (hb : 0 ≤ s.balls) (hm : 0 ≤ s.mechanical_eject_in_progress)
    (balls : Int) (tr : Option TRef) (tmo : Option Nat) (gb : Bool) (r f : Bool) :
    inv2 (eject env cfg balls tr tmo gb s).1 ∧
    inv2 (do_eject env cfg s).1 ∧
    inv2 (eject_success env cfg s).1 ∧
    (s.eject_in_progress_target.isSome → inv2 (eject_failed env cfg r f s).1) ∧
    inv2 (mechanical_eject_in_progress_handler env cfg s).1 ∧
    (s.eject_in_progress_target.isSome → inv2 (mechanical_eject_failed cfg s).1) ∧
    (stop env cfg s).1.eject_in_progress_target = none :=
  ⟨inv2_eject env cfg balls tr tmo gb s hb hm h,
   inv2_do_eject env cfg s hb hm h,
   inv2_eject_success env cfg s hb h,
   fun ht => inv2_eject_failed env cfg r f s hb ht,
   inv2_mech_handler env cfg s h,
   fun ht => inv2_mech_failed cfg s ht,
   stop_target_none env cfg s⟩

/-- Witness for C2 (amended) at a concrete mid-eject state. -/
theorem C2_amended_witness :
    inv2 (eject env0 cfg1 1 none none false c2Stop).1 ∧
    inv2 (do_eject env0 cfg1 c2Stop).1 ∧
    inv2 (eject_success env0 cfg1 c2Stop).1 ∧
    (c2Stop.eject_in_progress_target.isSome →
      inv2 (eject_failed env0 cfg1 true false c2Stop).1) ∧
    inv2 (mechanical_eject_in_progress_handler env0 cfg1 c2Stop).1 ∧
    (c2Stop.eject_in_progress_target.isSome →
      inv2 (mechanical_eject_failed cfg1 c2Stop).1) ∧
    (stop env0 cfg1 c2Stop).1.eject_in_progress_target = none :=
  C2_amended env0 cfg1 c2Stop (by decide) (by decide) (by decide)
    1 none none false true false

/-- C3: if any ball switch has been in its current state for less than
the corresponding debounce delay (`entrance_count_delay` while active,
`exit_count_delay` while inactive), `count_balls` declares the count
invalid, leaves `balls` unchanged and returns the previous value. -/
theorem C3_unsettled_switch_invalidates (env : Env) (cfg : BDConfig) (s : BDState)
    (i : Nat) (hi : i ∈ cfg.ball_switches)
    (hunsettled : ((env.sw i).active = true ∧ (env.sw i).ms < cfg.entrance_count_delay) ∨
                  ((env.sw i).active = false ∧ (env.sw i).ms < cfg.exit_count_delay)) :
    (count_balls env cfg s).1.valid = false ∧
    (count_balls env cfg s).1.balls = s.balls ∧
    (count_balls env cfg s).2.2 = s.balls := by
  have hne : cfg.ball_switches ≠ [] := by
    intro h
    rw [h] at hi
    exact absurd hi (List.not_mem_nil i)
  have hsv : switchValid env cfg i = false := by
    rcases hunsettled with ⟨ha, hms⟩ | ⟨ha, hms⟩ <;>
      simp [switchValid, is_active, is_inactive, ha] <;> omega
  have hall : cfg.ball_switches.all (switchValid env cfg) = false := by
    cases hA : cfg.ball_switches.all (switchValid env cfg)
    · rfl
    · exact absurd ((List.all_eq_true.mp hA) i hi) (by simp [hsv])
  simp [count_balls, hne, hall]

/-- Two-switch trough whose switches have only been active 100 ms. -/
def c3Env : Env := { env0 with sw := fun _ => ⟨true, 100⟩ }

def c3Cfg : BDConfig := { cfg1 with ball_switches := [0, 1] }

def c3S : BDState := { initState with balls := 2, valid := true }

/-- Witness for C3 at a concrete unsettled switch. -/
theorem C3_unsettled_switch_invalidates_witness :
    (count_balls c3Env c3Cfg c3S).1.valid = false ∧
    (count_balls c3Env c3Cfg c3S).1.balls = c3S.balls ∧
    (count_balls c3Env c3Cfg c3S).2.2 = c3S.balls :=
  C3_unsettled_switch_invalidates c3Env c3Cfg c3S 0 (by decide) (by decide)

lemma eject_failed_balls (env : Env) (cfg : BDConfig) (r f : Bool) (s : BDState) :
    (eject_failed env cfg r f s).1.balls = s.balls := by
  unfold eject_failed
  cases hte : s.eject_in_progress_target with
  | none => rfl
  | some t =>
    simp only [hte]
    split
    · rw [(do_eject_balls env cfg _).1]
      simp [cancel_eject_confirmation]
    · split
      · rw [(do_eject_balls env cfg _).1]
        simp [cancel_eject_confirmation]
      · simp [cancel_eject_confirmation]

lemma mechanical_eject_failed_balls (cfg : BDConfig) (s : BDState) :
    (mechanical_eject_failed cfg s).1.balls = s.balls := by
  unfold mechanical_eject_failed
  cases hte : s.eject_in_progress_target with
  | none => rfl
  | some t => simp [hte]

lemma eject_success_balls (env : Env) (cfg : BDConfig) (s : BDState) :
    (eject_success env cfg s).1.balls = s.balls := by
  unfold eject_success
  cases hte : s.eject_in_progress_target with
  | some t =>
    simp only [hte]
    split
    · rw [(do_eject_balls env cfg _).1]
      simp [cancel_eject_confirmation]
    · split
      · simp [cancel_eject_confirmation]
      · simp [cancel_eject_confirmation]
  | none =>
    simp only [hte]
    split
    · rw [(do_eject_balls env cfg _).1]
      simp [cancel_eject_confirmation]
    · split
      · simp [cancel_eject_confirmation]
      · simp [cancel_eject_confirmation]

lemma balls_added_balls (env : Env) (cfg : BDConfig) (s : BDState) (n : Int) :
    (balls_added env cfg s n).1.balls = s.balls := by
  simp only [balls_added]
  split_ifs <;>
    simp [eject_failed_balls, mechanical_eject_failed_balls]

lemma balls_missing_balls (s : BDState) (n : Int) :
    (balls_missing s n).1.balls = s.balls := by
  unfold balls_missing
  split <;> rfl

def inv4 (cfg : BDConfig) (s : BDState) : Prop :=
  0 ≤ s.balls ∧ s.balls ≤ cfg.ball_capacity

instance inv4Decidable (cfg : BDConfig) (s : BDState) : Decidable (inv4 cfg s) := by
  unfold inv4
  infer_instance

set_option maxHeartbeats 1000000 in
lemma inv4_count_balls (env : Env) (cfg : BDConfig) (s : BDState)
    (hcap : (cfg.ball_switches.length : Int) ≤ cfg.ball_capacity)
    (hs : inv4 cfg s) : inv4 cfg (count_balls env cfg s).1 := by
  have hfil : ((cfg.ball_switches.filter
      (fun i => is_active env i cfg.entrance_count_delay)).length : Int)
        ≤ cfg.ball_capacity :=
    le_trans (by exact_mod_cast List.length_filter_le _ _) hcap
  obtain ⟨hs0, hs1⟩ := hs
  unfold inv4
  simp only [count_balls]
  split_ifs <;>
    simp [eject_success_balls, balls_added_balls, balls_missing_balls,
      mechanical_eject_failed_balls] <;>
    omega

lemma inv4_ball_left (cfg : BDConfig) (s : BDState) (n : Int) (hn : 0 ≤ n)
    (hs : inv4 cfg s) : inv4 cfg (ball_left_device n s) := by
  obtain ⟨h0, h1⟩ := hs
  simp only [inv4, ball_left_device]
  split_ifs <;> constructor <;> omega

lemma inv4_entrance (env : Env) (cfg : BDConfig) (s : BDState)
    (hcap : 0 < cfg.ball_capacity) (hs : inv4 cfg s) :
    inv4 cfg (entrance_switch_handler env cfg s).1 := by
  obtain ⟨h0, h1⟩ := hs
  unfold entrance_switch_handler
  split
  · split
    · exact ⟨h0, h1⟩
    · rename_i hnsw hfull
      have hlt : s.balls < cfg.ball_capacity := by
        by_contra hge
        push_neg at hge
        have : is_full env cfg s = true := by
          unfold is_full
          rw [if_pos ⟨by omega, hge⟩]
        simp_all
      unfold inv4
      rw [balls_added_balls]
      constructor <;> simp <;> omega
  · exact ⟨h0, h1⟩

lemma inv4_perform (env : Env) (cfg : BDConfig) (t : Option Nat) (tmo : Nat)
    (s : BDState)
    (hej : 0 ≤ s.num_balls_ejecting ∧ s.num_balls_ejecting ≤ s.balls)
    (hs : inv4 cfg s) : inv4 cfg (perform_eject env cfg t tmo s) := by
  obtain ⟨h0, h1⟩ := hs
  obtain ⟨he0, he1⟩ := hej
  simp only [inv4, perform_eject]
  split_ifs <;> simp [setup_balls, setup_ejecting] <;> omega

lemma inv4_mech_progress (env : Env) (cfg : BDConfig) (s : BDState)
    (hcap : 0 ≤ cfg.ball_capacity) (hs : inv4 cfg s) :
    inv4 cfg (mechanical_eject_in_progress_handler env cfg s).1 := by
  unfold mechanical_eject_in_progress_handler
  cases hm : s.manual_eject_target with
  | none => exact hs
  | some t =>
    simp only
    unfold inv4
    rw [setup_balls]
    exact ⟨le_refl 0, hcap⟩

/-- Capacity 1 configured over two ball switches. -/
def c4Cfg : BDConfig := { cfg1 with ball_capacity := 1, ball_switches := [0, 1] }

def c4Env : Env := { env0 with sw := fun _ => ⟨true, 1000⟩ }

/-- C4 counterexample: with a configured `ball_capacity` of 1 but two
ball switches both active and settled, `count_balls` stores `balls = 2`
— the upper bound `balls ≤ ball_capacity` is not enforced (only the
negative clamp exists). -/
theorem C4_counterexample :
    (count_balls c4Env c4Cfg initState).1.balls = 2 ∧
    ¬ ((count_balls c4Env c4Cfg initState).1.balls ≤ c4Cfg.ball_capacity) := by decide

/-- C4 (amended): `0 ≤ balls ≤ ball_capacity` (computed negatives
clamped to 0) is preserved by `count_balls`, `_ball_left_device` (for a
non-negative decrement), `_entrance_switch_handler` (for a positive
capacity), `_perform_eject` (when `0 ≤ num_balls_ejecting ≤ balls`)
and `_mechanical_eject_in_progress` — PROVIDED the configured capacity
is at least the number of ball switches (as when it is derived from
them); a smaller configured capacity is exceeded by `count_balls`
(see the counterexample). -/
theorem C4_amended (env : Env) (cfg : BDConfig) (s : BDState)
    (hcap : (cfg.ball_switches.length : Int) ≤ cfg.ball_capacity)
    (hs : inv4 cfg s) (n : Int) (hn : 0 ≤ n) (t : Option Nat) (tmo : Nat) :
    inv4 cfg (count_balls env cfg s).1 ∧
    inv4 cfg (ball_left_device n s) ∧
    (0 < cfg.ball_capacity → inv4 cfg (entrance_switch_handler env cfg s).1) ∧
    ((0 ≤ s.num_balls_ejecting ∧ s.num_balls_ejecting ≤ s.balls) →
      inv4 cfg (perform_eject env cfg t tmo s)) ∧
    inv4 cfg (mechanical_eject_in_progress_handler env cfg s).1 :=
  ⟨inv4_count_balls env cfg s hcap hs,
   inv4_ball_left cfg s n hn hs,
   fun hc => inv4_entrance env cfg s hc hs,
   fun hej => inv4_perform env cfg t tmo s hej hs,
   inv4_mech_progress env cfg s
     (le_trans (by exact_mod_cast Nat.zero_le _) hcap) hs⟩

/-- Witness for C4 (amended) at a concrete state. -/
theorem C4_amended_witness :
    inv4 cfg1 (count_balls env0 cfg1 c2Stop).1 ∧
    inv4 cfg1 (ball_left_device 1 c2Stop) ∧
    (0 < cfg1.ball_capacity → inv4 cfg1 (entrance_switch_handler env0 cfg1 c2Stop).1) ∧
    ((0 ≤ c2Stop.num_balls_ejecting ∧ c2Stop.num_balls_ejecting ≤ c2Stop.balls) →
      inv4 cfg1 (perform_eject env0 cfg1 (some 1) 1000 c2Stop)) ∧
    inv4 cfg1 (mechanical_eject_in_progress_handler env0 cfg1 c2Stop).1 :=
  C4_amended env0 cfg1 c2Stop (by decide) (by decide) 1 (by decide) (some 1) 1000

/-- A device holding one ball. -/
def c5S : BDState := { initState with balls := 1 }

/-- C5 counterexample: `eject(balls=1)` on a device holding no balls
(with `get_ball=False`, the default) is not rejected, yet appends NO
copies to the queue — the count is silently clamped to the balls held,
contradicting "exactly balls copies are appended". -/
theorem C5_counterexample :
    (eject env0 cfg1 1 none none false initState).2.2 ≠ EjectRes.retFalse ∧
    (eject env0 cfg1 1 none none false initState).1.eject_queue = [] := by decide

/-- C5 (amended): `eject(balls, target, timeout, get_ball)` rejects
`balls < 1` (returns `False`, state untouched); otherwise it appends
exactly `balls` copies of the resolved `(target, timeout)` pair when
`get_ball` is true or `balls ≤ device.balls`, and only
`max(device.balls, 0)` copies otherwise, then runs `_do_eject` (which
may immediately dequeue the head).  A `None` target resolves to the
first configured eject target, a string target to the named device, and
a `None` timeout to the per-target configured timeout. -/
theorem C5_amended (env : Env) (cfg : BDConfig) (balls : Int) (tr : Option TRef)
    (tmo : Option Nat) (gb : Bool) (s : BDState) (nm : String) :
    (balls < 1 → eject env cfg balls tr tmo gb s = (s, [], .retFalse)) ∧
    (1 ≤ balls →
      (ejectEnqueue env cfg balls tr tmo gb s).eject_queue
        = s.eject_queue ++ List.replicate
            (if balls > s.balls ∧ gb = false then s.balls else balls).toNat
            (resolveTarget env cfg tr,
             tmo.getD (cfg.eject_timeouts (resolveTarget env cfg tr))) ∧
      eject env cfg balls tr tmo gb s
        = ((do_eject env cfg (ejectEnqueue env cfg balls tr tmo gb s)).1,
           (do_eject env cfg (ejectEnqueue env cfg balls tr tmo gb s)).2, .retNone)) ∧
    resolveTarget env cfg none = cfg.eject_targets.headD 0 ∧
    resolveTarget env cfg (some (.byName nm)) = env.deviceByName nm := by
  refine ⟨?_, ?_, rfl, rfl⟩
  · intro h
    unfold eject
    rw [if_pos h]
  · intro h
    refine ⟨rfl, ?_⟩
    unfold eject
    rw [if_neg (by omega)]

/-- Witness for C5 (amended) at concrete inputs (a clamped append and
a rejected call). -/
theorem C5_amended_witness :
    (ejectEnqueue env0 cfg1 2 none none false c5S).eject_queue
      = c5S.eject_queue ++ List.replicate
          (if (2:Int) > c5S.balls ∧ false = false then c5S.balls else 2).toNat
          (resolveTarget env0 cfg1 none,
           (none : Option Nat).getD (cfg1.eject_timeouts (resolveTarget env0 cfg1 none))) ∧
    eject env0 cfg1 0 none none false c5S = (c5S, [], .retFalse) :=
  ⟨((C5_amended env0 cfg1 2 none none false c5S "x").2.1 (by decide)).1,
   (C5_amended env0 cfg1 0 none none false c5S "x").1 (by decide)⟩

/-- One ball held, capacity 3, but already 2 balls requested: remaining
request capacity is 0. -/
def c6S : BDState := { initState with balls := 1, num_balls_requested := 2 }

/-- C6 counterexample: with remaining capacity
`ball_capacity - balls - num_balls_requested = 0` but
`get_additional_ball_capacity ≠ 0`, `request_ball` is not declined yet
returns 0 WITHOUT posting the ball-request event, contradicting the
claim's "otherwise ... posts the ball-request event". -/
theorem C6_counterexample :
    c6S.eject_in_progress_target = none ∧
    get_additional_ball_capacity cfg1 c6S ≠ 0 ∧
    request_ball cfg1 1 c6S = (c6S, [], .rNum 0) := by decide

/-- C6 (amended): `request_ball` declines (returns `False`) when an
eject is in progress or `get_additional_ball_capacity() = 0`; otherwise
it clamps the request to `max(ball_capacity - balls -
num_balls_requested, 0)` (−1 meaning fill), and: when the clamped
amount is non-zero it increments `num_balls_requested` by it, posts the
ball-request event for it and returns it; when the clamped amount is 0
it returns 0 WITHOUT posting anything or changing state. -/
theorem C6_amended (cfg : BDConfig) (s : BDState) (balls b rem : Int)
    (hrem : rem = max (cfg.ball_capacity - s.balls - s.num_balls_requested) 0)
    (hb : b = if balls = -1 ∨ balls > rem then rem else balls) :
    (s.eject_in_progress_target.isSome → request_ball cfg balls s = (s, [], .rFalse)) ∧
    (get_additional_ball_capacity cfg s = 0 →
      request_ball cfg balls s = (s, [], .rFalse)) ∧
    (s.eject_in_progress_target = none → get_additional_ball_capacity cfg s ≠ 0 →
      b ≠ 0 →
      (request_ball cfg balls s).1.num_balls_requested = s.num_balls_requested + b ∧
      (request_ball cfg balls s).2.1 = [Ev.ballRequest b] ∧
      (request_ball cfg balls s).2.2 = .rNum b) ∧
    (s.eject_in_progress_target = none → get_additional_ball_capacity cfg s ≠ 0 →
      b = 0 → request_ball cfg balls s = (s, [], .rNum 0)) := by
  have hrem2 : rem = if cfg.ball_capacity - s.balls - s.num_balls_requested < 0 then 0
      else cfg.ball_capacity - s.balls - s.num_balls_requested := by
    rw [hrem]
    split <;> omega
  refine ⟨?_, ?_, ?_, ?_⟩
  · intro h
    unfold request_ball
    rw [if_pos h]
  · intro h
    unfold request_ball
    split_ifs <;> simp_all
  · intro ht hc hb0
    simp only [request_ball, ht, Option.isSome_none, Bool.false_eq_true, if_false, hc]
    rw [← hrem2, ← hb, if_neg hb0]
    exact ⟨rfl, rfl, rfl⟩
  · intro ht hc hb0
    simp only [request_ball, ht, Option.isSome_none, Bool.false_eq_true, if_false, hc]
    rw [← hrem2, ← hb, if_pos hb0]

/-- Witness for C6 (amended) at concrete inputs (both the zero-clamp
and the posting branch). -/
theorem C6_amended_witness :
    (c6S.eject_in_progress_target = none → get_additional_ball_capacity cfg1 c6S ≠ 0 →
      (0:Int) = 0 → request_ball cfg1 1 c6S = (c6S, [], .rNum 0)) ∧
    (c5S.eject_in_progress_target = none →
      get_additional_ball_capacity cfg1 c5S ≠ 0 →
      (1:Int) ≠ 0 →
      (request_ball cfg1 1 c5S).1.num_balls_requested
        = c5S.num_balls_requested + 1 ∧
      (request_ball cfg1 1 c5S).2.1 = [Ev.ballRequest 1] ∧
      (request_ball cfg1 1 c5S).2.2 = .rNum 1) := by
  constructor
  · exact (C6_amended cfg1 c6S 1 0 0 (by decide) (by decide)).2.2.2
  · exact (C6_amended cfg1 c5S 1 1 2 (by decide) (by decide)).2.2.1

/-- A device mid-hold-coil-release: the `hold_coil_release` delay is
pending. -/
def c7S : BDState :=
  { initState with delays := [.holdCoilRelease], hold_release_in_progress := true }

/-- C7 counterexample: `stop()` cancels only the
`target_eject_confirmation_timeout` delay; a pending
`hold_coil_release` delay survives `stop()`, contradicting "no delayed
callback with a known name ... is still pending". -/
theorem C7_counterexample :
    (stop env0 cfg1 c7S).1.eject_queue = [] ∧
    (stop env0 cfg1 c7S).1.eject_in_progress_target = none ∧
    DelayName.holdCoilRelease ∈ (stop env0 cfg1 c7S).1.delays := by decide

lemma removeDelay_not_mem (n : DelayName) (l : List DelayName) :
    n ∉ removeDelay n l := by
  simp [removeDelay]

/-- C7 (amended): after `stop()` the eject queue is empty,
`eject_in_progress_target` is `None` and no
`target_eject_confirmation_timeout` delay is pending; the
`hold_coil_release` delay, however, is not cancelled by `stop()`. -/
theorem C7_amended (env : Env) (cfg : BDConfig) (s : BDState) :
    (stop env cfg s).1.eject_queue = [] ∧
    (stop env cfg s).1.eject_in_progress_target = none ∧
    DelayName.targetEjectConfirmationTimeout ∉ (stop env cfg s).1.delays := by
  obtain ⟨hq, ht, hd, _⟩ := count_balls_none_target env cfg
    (cancel_eject_confirmation
      { s with eject_in_progress_target := none,
               eject_queue := ([] : List (Nat × Nat)),
               num_jam_switch_count := 0 }) rfl
  refine ⟨hq.trans rfl, ht, fun hmem => ?_⟩
  have hmem2 : DelayName.targetEjectConfirmationTimeout ∈
      (count_balls env cfg (cancel_eject_confirmation
        { s with eject_in_progress_target := none,
                 eject_queue := ([] : List (Nat × Nat)),
                 num_jam_switch_count := 0 })).1.delays := hmem
  rw [hd] at hmem2
  exact removeDelay_not_mem _ _ hmem2

end Mpf
